import Mathlib

/-!
Shallow embedding of the tool-dispatch and server-bootstrap layer of the
rust-mcp-utils repository (crates mcp-utils and mcp-cli-builder, plus the
calculator example), together with theorems settling the specification
claims about it.

Modelling conventions:
* JSON values (serde_json::Value) are the inductive `Json`; JSON objects
  (serde_json::Map) are association lists.
* Fallible Rust code returning Result is embedded as `Except`.
* A tool instance is represented by the output its `call` produces: the
  tool was constructed from the request arguments and `call` takes no
  arguments, so the output value is the only behaviour the dispatch layer
  can observe.  A structured tool is represented by the outcome of
  serializing its output (`Except String Json`), mirroring the
  IntoStructuredToolResult blanket impl over Serialize.
* Rust f64 values are the type `F64`: finite doubles are stored as the
  integer multiple of 2 ^ (-1074) that they denote, and addition performs
  the exact integer sum followed by IEEE-754 round-to-nearest-even with
  overflow to infinity.  Signed zero is not distinguished (it is
  irrelevant to finiteness and to every claim below).
-/

/-- serde_json::Value. Numbers are modelled as rationals. -/
inductive Json where
  | null : Json
  | bool (b : Bool) : Json
  | num (q : Rat) : Json
  | str (s : String) : Json
  | arr (items : List Json) : Json
  | obj (fields : List (String × Json)) : Json

/-- tool.rs ToolError: an error carrying only a display string. -/
structure ToolError where
  display : String
deriving DecidableEq

/-- impl From of String for ToolError. -/
def ToolError.from_string (s : String) : ToolError :=
  { display := s }

/-- rust_mcp_sdk CallToolError: wraps an error; observable via its displayed message. -/
structure CallToolError where
  message : String
deriving DecidableEq

/-- CallToolError::new on a ToolError keeps the displayed message. -/
def CallToolError.new (e : ToolError) : CallToolError :=
  { message := e.display }

/-- CallToolError::new applied to an error that is already a CallToolError
re-wraps it, preserving the displayed message. -/
def CallToolError.wrap (e : CallToolError) : CallToolError :=
  e

/-- rust_mcp_sdk TextContent (annotations and meta are always None in this code). -/
structure TextContent where
  text : String
deriving DecidableEq

/-- TextContent::new(text, None, None). -/
def TextContent.new (text : String) : TextContent :=
  { text := text }

/-- rust_mcp_sdk CallToolResult, restricted to the fields this code sets:
text content plus optional structured content. -/
structure CallToolResult where
  content : List TextContent
  structuredContent : Option (List (String × Json))

/-- CallToolResult::text_content. -/
def CallToolResult.text_content (content : List TextContent) : CallToolResult :=
  { content := content, structuredContent := none }

/-- CallToolResult::with_structured_content. -/
def CallToolResult.with_structured_content (self : CallToolResult)
    (fields : List (String × Json)) : CallToolResult :=
  { self with structuredContent := some fields }

/-- The output of a text tool, after closing over its arguments: either a
bare string (the String / reference IntoTextToolResult instances) or a
Result whose success side converts into a String and whose failure side
converts into a ToolError (the Result blanket instance). -/
inductive TextToolOutput where
  | plain (s : String) : TextToolOutput
  | result (r : Except ToolError String) : TextToolOutput

/-- IntoTextToolResult::result for the instances in tool.rs. -/
def IntoTextToolResult.result : TextToolOutput → Except ToolError String
  | .plain s => .ok s
  | .result r => r

/-- IntoStructuredToolResult::result for the blanket Serialize instance:
serde_json::to_value, with a serialization failure mapped into a ToolError
built from the failure description. -/
def IntoStructuredToolResult.result (serialized : Except String Json) :
    Except ToolError Json :=
  serialized.mapError ToolError.from_string

/-- CustomTextTool::call (the blanket impl for TextTool): coerce the output
to a string, short-circuiting on failure, and wrap it as text content. -/
def CustomTextTool.call (output : TextToolOutput) :
    Except CallToolError CallToolResult := do
  let result ← (IntoTextToolResult.result output).mapError CallToolError.new
  return CallToolResult.text_content [TextContent.new result]

/-- AsyncCustomTextTool::call (the blanket impl for AsyncTextTool): awaits
the output, then applies the same coercion as the synchronous impl. -/
def AsyncCustomTextTool.call (output : TextToolOutput) :
    Except CallToolError CallToolResult := do
  let result ← (IntoTextToolResult.result output).mapError CallToolError.new
  return CallToolResult.text_content [TextContent.new result]

/-- CustomStructuredTool::call (the blanket impl for StructuredTool):
serialize the output, short-circuiting on failure; then attach the value as
structured content, merging object fields directly and wrapping any other
shape under the key "result". -/
def CustomStructuredTool.call (output : Except String Json) :
    Except CallToolError CallToolResult := do
  let value ← (IntoStructuredToolResult.result output).mapError CallToolError.new
  return (CallToolResult.text_content []).with_structured_content
    (match value with
      | Json.obj map => map
      | value => [("result", value)])

/-- AsyncCustomStructuredTool::call (the blanket impl for
AsyncStructuredTool): awaits the output, then applies the same coercion as
the synchronous impl. -/
def AsyncCustomStructuredTool.call (output : Except String Json) :
    Except CallToolError CallToolResult := do
  let value ← (IntoStructuredToolResult.result output).mapError CallToolError.new
  return (CallToolResult.text_content []).with_structured_content
    (match value with
      | Json.obj map => map
      | value => [("result", value)])

/-- tool.rs CustomToolInner: the closed set of four callable shapes, each
case holding (the output of) one underlying callable. -/
inductive CustomToolInner where
  | text (tool : TextToolOutput) : CustomToolInner
  | structured (tool : Except String Json) : CustomToolInner
  | asyncText (tool : TextToolOutput) : CustomToolInner
  | asyncStructured (tool : Except String Json) : CustomToolInner

/-- tool.rs CustomTool. -/
structure CustomTool where
  inner : CustomToolInner

/-- CustomTool::call: dispatch on the variant. -/
def CustomTool.call (self : CustomTool) : Except CallToolError CallToolResult :=
  match self.inner with
  | .text tool => CustomTextTool.call tool
  | .structured tool => CustomStructuredTool.call tool
  | .asyncText tool => AsyncCustomTextTool.call tool
  | .asyncStructured tool => AsyncCustomStructuredTool.call tool

/-- The error carried by a variant's underlying output, when there is one:
the business error of a text tool's Result output, or the serialization
failure of a structured tool's output. -/
def CustomToolInner.outputError : CustomToolInner → Option ToolError
  | .text tool => match IntoTextToolResult.result tool with
    | .error e => some e
    | .ok _ => none
  | .asyncText tool => match IntoTextToolResult.result tool with
    | .error e => some e
    | .ok _ => none
  | .structured tool => match IntoStructuredToolResult.result tool with
    | .error e => some e
    | .ok _ => none
  | .asyncStructured tool => match IntoStructuredToolResult.result tool with
    | .error e => some e
    | .ok _ => none

/-- rust_mcp_sdk CallToolRequestParams: tool name plus optional arguments map. -/
structure CallToolRequestParams where
  name : String
  arguments : Option (List (String × Json))

/-- The TryFrom impl generated by the setup_tools macro: default the
arguments to an empty map when absent (Option::get_or_insert_default), then
delegate to the inner tool enum's TryFrom, which routes by name and
deserializes the arguments.  The inner routing is a parameter, as it is
generated per declared tool set. -/
def setup_tools_try_from {T : Type} (innerTryFrom : CallToolRequestParams → Except CallToolError T)
    (value : CallToolRequestParams) : Except CallToolError T :=
  innerTryFrom { value with arguments := some (value.arguments.getD []) }

/-- rust_mcp_sdk Tool descriptor, restricted to the fields this code reads. -/
structure Tool where
  name : String
  title : Option String
  description : Option String

/-- The ToolBox trait together with the TryFrom bound required of the
handler's type parameter: routing of request params to a tool value,
extraction of the CustomTool variant, and the static descriptor list. -/
structure ToolBoxModel (T : Type) where
  tryFromParams : CallToolRequestParams → Except CallToolError T
  getTool : T → CustomTool
  getTools : List Tool

/-- rust_mcp_sdk RpcError, observable via its message. -/
structure RpcError where
  message : String
deriving DecidableEq

/-- CallToolError::new on an RpcError keeps the message. -/
def CallToolError.newRpc (e : RpcError) : CallToolError :=
  { message := e.message }

/-- rust_mcp_sdk ListToolsResult. -/
structure ListToolsResult where
  meta : Option Unit
  nextCursor : Option String
  tools : List Tool

/-- Handler::handle_list_tools_request: assert the negotiated capabilities
(the runtime's verdict is the capCheck parameter), propagating a failure
with the question-mark operator; then answer with T::get_tools(). -/
def handle_list_tools_request {T : Type} (capCheck : Except RpcError Unit)
    (tb : ToolBoxModel T) : Except RpcError ListToolsResult := do
  let _ ← capCheck
  return { meta := none, nextCursor := none, tools := tb.getTools }

/-- Handler::handle_call_tool_request: assert the negotiated capabilities,
mapping a failure into CallToolError; then build the tool from the request
params (routing plus argument deserialization), and call it. -/
def handle_call_tool_request {T : Type} (capCheck : Except RpcError Unit)
    (tb : ToolBoxModel T) (params : CallToolRequestParams) :
    Except CallToolError CallToolResult := do
  let _ ← capCheck.mapError CallToolError.newRpc
  let custom_tool ← (tb.tryFromParams params).mapError CallToolError.wrap
  (tb.getTool custom_tool).call

/-- std::time::Duration, at the second granularity used by this code. -/
structure Duration where
  secs : Nat
deriving DecidableEq

/-- Duration::from_secs. -/
def Duration.from_secs (secs : Nat) : Duration :=
  { secs := secs }

/-- Build-time constant env "CARGO_PKG_NAME" of the mcp-utils crate. -/
def CARGO_PKG_NAME : String := "mcp-utils"

/-- Build-time constant env "CARGO_PKG_VERSION" of the mcp-utils crate; the
exact value is fixed by the build manifest and irrelevant to every claim. -/
def CARGO_PKG_VERSION : String := "0.0.0"

/-- server_config.rs ServerConfig. -/
structure ServerConfig where
  name : String
  title : String
  version : String
  instructions : String
  timeout : Duration
deriving DecidableEq

/-- impl Default for ServerConfig. -/
def ServerConfig.default : ServerConfig :=
  { name := CARGO_PKG_NAME
    title := ""
    version := CARGO_PKG_VERSION
    instructions := ""
    timeout := Duration.from_secs 60 }

/-- server.rs ServerBuilder. -/
structure ServerBuilder where
  config : ServerConfig
deriving DecidableEq

/-- ServerBuilder::new (Self::default, with the derived Default delegating
to ServerConfig's Default). -/
def ServerBuilder.new : ServerBuilder :=
  { config := ServerConfig.default }

/-- ServerBuilder::with_timeout. -/
def ServerBuilder.with_timeout (self : ServerBuilder) (timeout : Duration) : ServerBuilder :=
  { self with config := { self.config with timeout := timeout } }

/-- ServerBuilder::set_timeout (mutation modelled as returning the updated builder). -/
def ServerBuilder.set_timeout (self : ServerBuilder) (timeout : Duration) : ServerBuilder :=
  { self with config := { self.config with timeout := timeout } }

/-- rust_mcp_sdk Implementation. -/
structure Implementation where
  name : String
  version : String
  title : Option String

/-- rust_mcp_sdk ServerCapabilitiesTools. -/
structure ServerCapabilitiesTools where
  list_changed : Option Bool

/-- rust_mcp_sdk ServerCapabilities, restricted to the tools field this
code sets (the remaining fields are left at their defaults). -/
structure ServerCapabilities where
  tools : Option ServerCapabilitiesTools

/-- rust_mcp_sdk constant LATEST_PROTOCOL_VERSION; the exact value is fixed
by the SDK and irrelevant to every claim. -/
def LATEST_PROTOCOL_VERSION : String := "2025-06-18"

/-- rust_mcp_sdk InitializeResult. -/
structure InitializeResult where
  server_info : Implementation
  capabilities : ServerCapabilities
  meta : Option Unit
  instructions : Option String
  protocol_version : String

/-- ServerBuilder::get_server_details: the handshake payload, with the
title dropped when empty and the tools capability present exactly when
T::get_tools() is non-empty. -/
def ServerBuilder.get_server_details {T : Type} (self : ServerBuilder)
    (tb : ToolBoxModel T) : InitializeResult :=
  { server_info :=
      { name := self.config.name
        version := self.config.version
        title := (some self.config.title).filter (fun title => !title.isEmpty) }
    capabilities :=
      { tools :=
          if tb.getTools.isEmpty then none
          else some { list_changed := none } }
    meta := none
    instructions := some self.config.instructions
    protocol_version := LATEST_PROTOCOL_VERSION }

/-- mcp-cli-builder DEFAULT_PORT. -/
def DEFAULT_PORT : Nat := 8080

/-- The transport a run of the server binds: stdio (pipe) or the network
listener with a resolved host and port.  The two constructors are disjoint,
so one run binds exactly one mode. -/
inductive ServerMode where
  | stdio : ServerMode
  | server (host : String) (port : Nat) : ServerMode
deriving DecidableEq

/-- ServerBuilder::start_server's host resolution:
Some(host).filter(not empty).unwrap_or("127.0.0.1"). -/
def start_server_host (host : String) : String :=
  (((some host).filter (fun h => !h.isEmpty)).getD "127.0.0.1")

/-- The transport-mode decision of mcp-cli-builder's inner_run: with
neither host nor port, start_stdio; otherwise start_server with the host
defaulted to "127.0.0.1" and the port defaulted to DEFAULT_PORT, the host
being further resolved by start_server. -/
def inner_run_mode (host : Option String) (port : Option Nat) : ServerMode :=
  match host, port with
  | none, none => ServerMode.stdio
  | host, port =>
    ServerMode.server (start_server_host (host.getD "127.0.0.1")) (port.getD DEFAULT_PORT)

/-- The value clap yields for the timeout argument: the parsed user flag
when present, and the parsed default_value "60s" otherwise (so get_one
always yields a value). -/
def clap_timeout_match (userFlag : Option Duration) : Option Duration :=
  some (userFlag.getD (Duration.from_secs 60))

/-- inner_run's timeout resolution: the clap match, unwrap_or_else 60s. -/
def inner_run_timeout (userFlag : Option Duration) : Duration :=
  (clap_timeout_match userFlag).getD (Duration.from_secs 60)

/-- The builder state with which inner_run starts the server: the resolved
timeout is unconditionally written into the builder with set_timeout. -/
def inner_run_builder (builder : ServerBuilder) (userFlag : Option Duration) : ServerBuilder :=
  builder.set_timeout (inner_run_timeout userFlag)

/-- Rust f64 (IEEE-754 binary64), without the sign of zero: a finite double
is stored as the integer k such that its value is k * 2 ^ (-1074). -/
inductive F64 where
  | finite (k : Int) : F64
  | inf : F64
  | negInf : F64
  | nan : F64
deriving DecidableEq

/-- Bit length of a number below 2 ^ 64, computed with explicit fuel so
that reduction is structural. -/
def bitLenSmall : Nat → Nat → Nat
  | 0, _ => 0
  | fuel + 1, n => if n = 0 then 0 else bitLenSmall fuel (n / 2) + 1

/-- Bit length, peeling 64 bits per step of fuel; 64 steps cover every
magnitude a binary64 computation produces. -/
def bitLenAux : Nat → Nat → Nat
  | 0, _ => 0
  | fuel + 1, n => if n < 2 ^ 64 then bitLenSmall 64 n else bitLenAux fuel (n / 2 ^ 64) + 64

/-- Bit length of a natural number. -/
def bitLen (n : Nat) : Nat := bitLenAux 64 n

/-- Quotient of n by 2 ^ shift, rounded to nearest with ties to even. -/
def rneDiv (n : Nat) (shift : Nat) : Nat :=
  let u := 2 ^ shift
  let q := n / u
  let r := n % u
  let half := u / 2
  if half < r then q + 1
  else if r < half then q
  else if q % 2 = 0 then q else q + 1

/-- Round an exact value s (in units of 2 ^ (-1074)) to the nearest
binary64: magnitudes of at most 53 bits are exact (subnormals and small
normals); larger magnitudes are rounded to 53 significant bits with ties to
even; a rounded magnitude of at least 2 ^ 1024 (2 ^ 2098 in these units)
overflows to the infinity of the corresponding sign. -/
def F64.roundInt (s : Int) : F64 :=
  let n := s.natAbs
  let L := bitLen n
  let rounded : Nat :=
    if L ≤ 53 then n
    else rneDiv n (L - 53) * 2 ^ (L - 53)
  if 2 ^ 2098 ≤ rounded then
    if 0 ≤ s then F64.inf else F64.negInf
  else
    if 0 ≤ s then F64.finite (rounded : Int) else F64.finite (-(rounded : Int))

/-- IEEE-754 addition on F64: NaN and infinity cases, then exact integer
addition of finite values followed by rounding. -/
def F64.add : F64 → F64 → F64
  | .nan, _ => .nan
  | _, .nan => .nan
  | .inf, .negInf => .nan
  | .negInf, .inf => .nan
  | .inf, _ => .inf
  | _, .inf => .inf
  | .negInf, _ => .negInf
  | _, .negInf => .negInf
  | .finite a, .finite b => F64.roundInt (a + b)

/-- f64::is_finite. -/
def F64.is_finite : F64 → Bool
  | .finite _ => true
  | _ => false

/-- The Rust literal 1e308: the decimal value 10 ^ 308 converted to the
nearest binary64. -/
def F64.lit1e308 : F64 := F64.roundInt ((10 ^ 308 * 2 ^ 1074 : Nat) : Int)

/-- calculator example SumTool: its deserialized arguments. -/
structure SumTool where
  values : List F64

/-- calculator example SumResult. -/
structure SumResult where
  sum : Option F64
  error : Option String
deriving DecidableEq

/-- The loop of SumTool's StructuredTool::call: running sum starting at
0.0, with an early error return as soon as an addition leaves the finite
range. -/
def SumTool.callLoop (sum : F64) : List F64 → SumResult
  | [] => { sum := some sum, error := none }
  | number :: rest =>
    let new_sum := sum.add number
    if new_sum.is_finite then SumTool.callLoop new_sum rest
    else { error := some "Infinite value detected", sum := none }

/-- StructuredTool::call for SumTool. -/
def SumTool.call (self : SumTool) : SumResult :=
  SumTool.callLoop (F64.finite 0) self.values

/-- serde_json serialization of an f64 value: a finite double becomes a
number, a non-finite one becomes null. -/
def F64.to_json : F64 → Json
  | .finite k => Json.num ((k : Rat) / ((2 : Rat) ^ 1074))
  | _ => Json.null

/-- serde_json::to_value for SumResult: a JSON object with the fields in
declaration order, each skipped when None (skip_serializing_if); this
serialization never fails. -/
def SumResult.to_value (self : SumResult) : Except String Json :=
  Except.ok (Json.obj
    ((match self.sum with
      | some s => [("sum", F64.to_json s)]
      | none => []) ++
     (match self.error with
      | some e => [("error", Json.str e)]
      | none => [])))

/-- Modelled from the spec: the output-coercion rule for structured
results, in the spec's words — a value serializing to a JSON object has
its fields merged directly into the result payload; any other serialized
shape (scalar, array, null) is wrapped under the single reserved key
"result". -/
def structuredPayloadSpec : Json → List (String × Json)
  | Json.obj fields => fields
  | v => [("result", v)]

/-- Claim C1: for every structured tool call whose output serializes
successfully, the structured payload of the returned call result is exactly
the serialized object when the value is a JSON object (fields merged, no
extra nesting), and otherwise the one-entry object mapping the reserved key
"result" to the value — on both the synchronous and the asynchronous
structured path. -/
theorem structured_output_merge_or_wrap (v : Json) :
    CustomStructuredTool.call (Except.ok v) =
      Except.ok ⟨[], some (structuredPayloadSpec v)⟩ ∧
    AsyncCustomStructuredTool.call (Except.ok v) =
      Except.ok ⟨[], some (structuredPayloadSpec v)⟩ := by
  cases v <;> exact ⟨rfl, rfl⟩

/-- Claim C2: for every underlying tool and output, CustomTool::call
terminates with either a call result or an error: when the underlying
output carries no error (business failure of a text tool's Result output,
or serialization failure of a structured output) the call succeeds with
some result, and when it does carry an error the call returns exactly that
error converted through CallToolError::new — never an unhandled fault. -/
theorem custom_tool_call_total (t : CustomTool) :
    (t.inner.outputError = none ∧ ∃ r, t.call = Except.ok r) ∨
    (∃ e, t.inner.outputError = some e ∧
      t.call = Except.error (CallToolError.new e)) := by
  obtain ⟨inner⟩ := t
  cases inner with
  | text tool =>
    cases tool with
    | plain s =>
      exact Or.inl ⟨rfl, ⟨CallToolResult.text_content [TextContent.new s], rfl⟩⟩
    | result r =>
      cases r with
      | ok s =>
        exact Or.inl ⟨rfl, ⟨CallToolResult.text_content [TextContent.new s], rfl⟩⟩
      | error e => exact Or.inr ⟨e, rfl, rfl⟩
  | asyncText tool =>
    cases tool with
    | plain s =>
      exact Or.inl ⟨rfl, ⟨CallToolResult.text_content [TextContent.new s], rfl⟩⟩
    | result r =>
      cases r with
      | ok s =>
        exact Or.inl ⟨rfl, ⟨CallToolResult.text_content [TextContent.new s], rfl⟩⟩
      | error e => exact Or.inr ⟨e, rfl, rfl⟩
  | structured tool =>
    cases tool with
    | ok v =>
      refine Or.inl ⟨rfl, ⟨(CallToolResult.text_content []).with_structured_content
        (structuredPayloadSpec v), ?_⟩⟩
      cases v <;> rfl
    | error e => exact Or.inr ⟨ToolError.from_string e, rfl, rfl⟩
  | asyncStructured tool =>
    cases tool with
    | ok v =>
      refine Or.inl ⟨rfl, ⟨(CallToolResult.text_content []).with_structured_content
        (structuredPayloadSpec v), ?_⟩⟩
      cases v <;> rfl
    | error e => exact Or.inr ⟨ToolError.from_string e, rfl, rfl⟩

/-- Claim C3: in both handler entry points the capability check comes
first: when the runtime's capability assertion fails with an error, the
list-tools handler returns that error unchanged, the call-tool handler
returns it converted by CallToolError::new, and the call-tool handler's
answer is independent of the tool box and the request parameters — no
routing, no argument deserialization, no tool invocation. -/
theorem capability_check_gates_handlers {T U : Type} (e : RpcError)
    (tb : ToolBoxModel T) (tb2 : ToolBoxModel U) (p p2 : CallToolRequestParams) :
    handle_list_tools_request (Except.error e) tb = Except.error e ∧
    handle_call_tool_request (Except.error e) tb p =
      Except.error (CallToolError.newRpc e) ∧
    handle_call_tool_request (Except.error e) tb p =
      handle_call_tool_request (Except.error e) tb2 p2 := by
  exact ⟨rfl, rfl, rfl⟩

/-- Claim C4: for every generated tool box routing function, a call request
without an arguments field is routed identically to the same request with
an empty-object arguments field: the generated TryFrom yields the same
result (same routed tool on success, same error on failure). -/
theorem omitted_arguments_routed_as_empty_object {T : Type}
    (innerTryFrom : CallToolRequestParams → Except CallToolError T) (name : String) :
    setup_tools_try_from innerTryFrom { name := name, arguments := none } =
      setup_tools_try_from innerTryFrom { name := name, arguments := some [] } := by
  rfl

/-- Claim C5: the coercion applied by the asynchronous structured path
equals the one applied by the synchronous structured path on every output,
and likewise for the text paths: asynchrony never changes the coercion
rule. -/
theorem async_coercion_agrees_with_sync :
    (∀ output : Except String Json,
      AsyncCustomStructuredTool.call output = CustomStructuredTool.call output) ∧
    (∀ output : TextToolOutput,
      AsyncCustomTextTool.call output = CustomTextTool.call output) := by
  exact ⟨fun _ => rfl, fun _ => rfl⟩

/-- Claim C6: for every tool box, the handshake payload built by
get_server_details contains the tools capability if and only if the tool
box's descriptor list is non-empty; with an empty catalog the capability is
absent. -/
theorem tools_capability_iff_catalog_nonempty {T : Type} (b : ServerBuilder)
    (tb : ToolBoxModel T) :
    ((b.get_server_details tb).capabilities.tools = none ↔ tb.getTools = []) := by
  cases h : tb.getTools <;>
    simp [ServerBuilder.get_server_details, h]

/-- Claim C7: with neither host nor port the CLI starts the server in
stdio (pipe) mode — and only then, so the two modes are mutually
exclusive; with either supplied it starts in network mode, an unspecified
host defaulting to the loopback address 127.0.0.1 (an explicit host passing
through start_server's resolution) and an unspecified port defaulting to
DEFAULT_PORT, which is 8080. -/
theorem transport_mode_selection :
    inner_run_mode none none = ServerMode.stdio ∧
    (∀ port, inner_run_mode none (some port) = ServerMode.server "127.0.0.1" port) ∧
    (∀ host, inner_run_mode (some host) none =
      ServerMode.server (start_server_host host) DEFAULT_PORT) ∧
    DEFAULT_PORT = 8080 ∧
    (∀ host port,
      inner_run_mode host port = ServerMode.stdio ↔ host = none ∧ port = none) := by
  refine ⟨rfl, fun port => rfl, fun host => rfl, rfl, fun host port => ?_⟩
  cases host <;> cases port <;> simp [inner_run_mode]

/-- Claim C8: the timeout is 60 seconds when none is configured — in the
default ServerConfig and when the CLI runs without a timeout flag — and an
explicitly configured timeout (the CLI flag, with_timeout or set_timeout)
overrides the default. -/
theorem timeout_default_and_override :
    ServerConfig.default.timeout = Duration.from_secs 60 ∧
    (∀ b : ServerBuilder,
      (inner_run_builder b none).config.timeout = Duration.from_secs 60) ∧
    (∀ (b : ServerBuilder) (t : Duration), (b.with_timeout t).config.timeout = t) ∧
    (∀ (b : ServerBuilder) (t : Duration), (b.set_timeout t).config.timeout = t) ∧
    (∀ (b : ServerBuilder) (t : Duration),
      (inner_run_builder b (some t)).config.timeout = t) := by
  exact ⟨rfl, fun _ => rfl, fun _ _ => rfl, fun _ _ => rfl, fun _ _ => rfl⟩

set_option exponentiation.threshold 5000 in
set_option maxRecDepth 10000 in
/-- Claim C9: calling the sum tool on [1e308, 1e308] — whose running sum
overflows to infinity at the second addition — produces the structured
payload consisting of exactly the one entry error, "Infinite value
detected": no sum key is present, and no infinite or NaN sum is
returned. -/
theorem sum_tool_overflow_payload :
    CustomStructuredTool.call (SumResult.to_value
      (SumTool.call { values := [F64.lit1e308, F64.lit1e308] })) =
      Except.ok ⟨[], some [("error", Json.str "Infinite value detected")]⟩ := by
  rfl

/-- Claim C10: the CLI runner unconditionally overwrites the builder's
timeout: because the timeout argument carries the default value 60s,
running the CLI without an explicit timeout flag starts the server with a
60-second timeout for every builder, discarding any duration previously
set with with_timeout or set_timeout. -/
theorem cli_discards_builder_timeout (b : ServerBuilder) (t : Duration) :
    (inner_run_builder (b.with_timeout t) none).config.timeout =
      Duration.from_secs 60 ∧
    (inner_run_builder (b.set_timeout t) none).config.timeout =
      Duration.from_secs 60 := by
  exact ⟨rfl, rfl⟩
